import Mathlib

/-!
Verification of `custom_components/openai_stt/stt.py`.

Shallow embedding conventions:
* Python `bytes` values are `List Nat` with every element `< 256`.
* Python `int` is `Nat` here (all integers involved are non-negative).
* `struct.pack` range-checks its argument and raises `struct.error` when it
  is out of range; we model each pack call as an `Option (List Nat)`:
  `none` models the raised `struct.error`.
* Python `str` payloads handled by the response path are `List Nat`
  (their byte/char codes), and `str.strip()` is modelled by `strip` below.
* The single HTTP exchange performed by `async_process_audio_stream` is
  modelled by an explicit `RequestOutcome` argument describing what the
  `httpx` client call produced: a server response (status and body), a
  transport-level failure (an `httpx.HTTPError` carrying no `response`
  attribute), or any other unexpected exception inside the `try` block.
-/

namespace OpenAISTT

/-- `struct.pack('<I', n)` payload: four little-endian base-256 digits. -/
def u32le (n : Nat) : List Nat :=
  [n % 256, n / 256 % 256, n / 65536 % 256, n / 16777216 % 256]

/-- `struct.pack('<H', n)` payload: two little-endian base-256 digits. -/
def u16le (n : Nat) : List Nat :=
  [n % 256, n / 256 % 256]

/-- `struct.pack('<I', n)`: requires `0 <= n <= 0xFFFFFFFF`, else raises
`struct.error` (modelled as `none`). -/
def packU32LE (n : Nat) : Option (List Nat) :=
  if n < 4294967296 then some (u32le n) else none

/-- `struct.pack('<H', n)`: requires `0 <= n <= 0xFFFF`, else raises
`struct.error` (modelled as `none`). -/
def packU16LE (n : Nat) : Option (List Nat) :=
  if n < 65536 then some (u16le n) else none

/-- Embedding of `convert_pcm_to_wav` (stt.py lines 106-131).  The
`io.BytesIO` buffer is modelled by list concatenation in write order; the
byte-string literals `b'RIFF'`, `b'WAVE'`, `b'fmt '`, `b'data'` are their
ASCII codes.  Default arguments mirror the Python signature.  Any
`struct.pack` failure makes the whole call fail (`none`), as the raised
`struct.error` would propagate out of the Python function. -/
def convert_pcm_to_wav (pcm_data : List Nat) (sample_rate : Nat := 16000)
    (channels : Nat := 1) (sample_width : Nat := 2) : Option (List Nat) := do
  let data_size := pcm_data.length
  let file_size := 36 + data_size
  let chunkSize ← packU32LE file_size
  let subchunk1Size ← packU32LE 16
  let audioFormat ← packU16LE 1
  let numChannels ← packU16LE channels
  let sampleRateB ← packU32LE sample_rate
  let byteRate ← packU32LE (sample_rate * channels * sample_width)
  let blockAlign ← packU16LE (channels * sample_width)
  let bitsPerSample ← packU16LE (sample_width * 8)
  let subchunk2Size ← packU32LE data_size
  return [82, 73, 70, 70] ++ chunkSize ++ [87, 65, 86, 69] ++
    [102, 109, 116, 32] ++ subchunk1Size ++ audioFormat ++ numChannels ++
    sampleRateB ++ byteRate ++ blockAlign ++ bitsPerSample ++
    [100, 97, 116, 97] ++ subchunk2Size ++ pcm_data

/-- Little-endian unsigned 32-bit read at a byte offset (header parsing). -/
def readU32LE (bs : List Nat) (off : Nat) : Nat :=
  bs.getD off 0 + 256 * bs.getD (off + 1) 0 + 65536 * bs.getD (off + 2) 0 +
    16777216 * bs.getD (off + 3) 0

/-- Little-endian unsigned 16-bit read at a byte offset (header parsing). -/
def readU16LE (bs : List Nat) (off : Nat) : Nat :=
  bs.getD off 0 + 256 * bs.getD (off + 1) 0

/-- Slice `bs[off : off+n]` of a byte string. -/
def slice (bs : List Nat) (off n : Nat) : List Nat :=
  (bs.drop off).take n

/-- Parsing the format fields back out of a framed container:
(sample rate at offset 24, channel count at offset 22, bits-per-sample at
offset 34, data size at offset 40). -/
def parseHeaderFields (bs : List Nat) : Nat × Nat × Nat × Nat :=
  (readU32LE bs 24, readU16LE bs 22, readU16LE bs 34, readU32LE bs 40)

/-- The chunk-draining loop of `async_process_audio_stream`
(stt.py lines 183-185): `audio_data = b""` then `audio_data += chunk` for
each chunk, in arrival order. -/
def drainStream (stream : List (List Nat)) : List Nat :=
  stream.foldl (fun acc chunk => acc ++ chunk) []

/-- `SpeechResultState` of the host platform: `SUCCESS` or `ERROR`. -/
inductive SpeechResultState where
  | success
  | error
  deriving DecidableEq, Repr

/-- `SpeechResult(text, state)` returned to the host platform.  The text is
modelled as a list of character codes. -/
structure SpeechResult where
  text : List Nat
  state : SpeechResultState
  deriving DecidableEq, Repr

/-- The metadata fields of `SpeechMetadata` that
`async_process_audio_stream` actually reads. -/
structure SpeechMetadata where
  sample_rate : Nat
  channel : Nat
  bit_rate : Nat
  deriving DecidableEq, Repr

/-- Python whitespace characters stripped by `str.strip()` (ASCII range):
space, tab, newline, carriage return, vertical tab, form feed. -/
def isPyWhitespace (c : Nat) : Bool :=
  c = 32 || c = 9 || c = 10 || c = 13 || c = 11 || c = 12

/-- `str.strip()`: remove leading and trailing whitespace. -/
def strip (s : List Nat) : List Nat :=
  ((s.dropWhile isPyWhitespace).reverse.dropWhile isPyWhitespace).reverse

/-- `httpx.Response.is_success`: status in the 2xx range;
`response.raise_for_status()` raises `httpx.HTTPStatusError` exactly when
this is false. -/
def isSuccessStatus (status : Nat) : Bool :=
  200 ≤ status && status < 300

/-- What the awaited `self._client.post(...)` call produced. -/
inductive RequestOutcome where
  | response (status : Nat) (body : List Nat)
  | transportError
  | otherFailure
  deriving DecidableEq, Repr

/-- A Python exception escaping `async_process_audio_stream` unhandled. -/
inductive PyException where
  | attributeError
  deriving DecidableEq, Repr

/-- The sample width handed to the framer by `async_process_audio_stream`
(stt.py line 195): `metadata.bit_rate // 8`, Python floor division. -/
def framerSampleWidth (metadata : SpeechMetadata) : Nat :=
  metadata.bit_rate / 8

/-- Embedding of `async_process_audio_stream` (stt.py lines 175-246).

* The chunk stream is drained into `audio_data` before the `try` block.
* Inside `try`: `convert_pcm_to_wav` may raise `struct.error`; that is not
  an `httpx.HTTPError`, so it is caught by the final `except Exception`
  handler, which returns `SpeechResult("", ERROR)`.
* On a server response, `response.raise_for_status()` raises
  `httpx.HTTPStatusError` for a non-2xx status.  That exception carries a
  truthy `.response` attribute, so the `except httpx.HTTPError` handler
  takes the `hasattr(err, "response") and err.response` branch and
  evaluates `await err.response.atext()`.  `httpx.Response` defines no
  method named `atext` (reading the body is the `text` property or the
  async `aread()` method), so this line raises `AttributeError`; an
  exception raised inside an `except` handler is not caught by the sibling
  `except Exception` clause, so it escapes the coroutine unhandled.  We
  model this escape as `Except.error PyException.attributeError`.
* A transport-level `httpx.HTTPError` (e.g. `httpx.ConnectError`) has no
  `response` attribute, so `hasattr` is false and the handler returns
  `SpeechResult("", ERROR)`.
* Any other unexpected exception inside the `try` block is caught by
  `except Exception` and mapped to `SpeechResult("", ERROR)`. -/
def async_process_audio_stream (metadata : SpeechMetadata)
    (stream : List (List Nat)) (outcome : RequestOutcome) :
    Except PyException SpeechResult :=
  let audio_data := drainStream stream
  match convert_pcm_to_wav audio_data metadata.sample_rate metadata.channel
      (framerSampleWidth metadata) with
  | none => Except.ok ⟨[], SpeechResultState.error⟩
  | some _wav_audio =>
    match outcome with
    | RequestOutcome.response status body =>
      if isSuccessStatus status then
        if body = [] ∨ strip body = [] then
          Except.ok ⟨[], SpeechResultState.error⟩
        else
          Except.ok ⟨strip body, SpeechResultState.success⟩
      else
        Except.error PyException.attributeError
    | RequestOutcome.transportError =>
      Except.ok ⟨[], SpeechResultState.error⟩
    | RequestOutcome.otherFailure =>
      Except.ok ⟨[], SpeechResultState.error⟩

/-- Closed form of the byte string produced by a successful
`convert_pcm_to_wav` call (proved equal to it in `convert_eq_some_iff`):
the 44 header bytes in write order, followed by the untouched PCM data. -/
def wavBytes (pcm_data : List Nat) (sample_rate channels sample_width : Nat) :
    List Nat :=
  let len := pcm_data.length
  let fs := 36 + len
  let br := sample_rate * channels * sample_width
  let ba := channels * sample_width
  let bps := sample_width * 8
  82 :: 73 :: 70 :: 70 ::
  fs % 256 :: fs / 256 % 256 :: fs / 65536 % 256 :: fs / 16777216 % 256 ::
  87 :: 65 :: 86 :: 69 :: 102 :: 109 :: 116 :: 32 ::
  16 :: 0 :: 0 :: 0 :: 1 :: 0 ::
  channels % 256 :: channels / 256 % 256 ::
  sample_rate % 256 :: sample_rate / 256 % 256 ::
  sample_rate / 65536 % 256 :: sample_rate / 16777216 % 256 ::
  br % 256 :: br / 256 % 256 :: br / 65536 % 256 :: br / 16777216 % 256 ::
  ba % 256 :: ba / 256 % 256 ::
  bps % 256 :: bps / 256 % 256 ::
  100 :: 97 :: 116 :: 97 ::
  len % 256 :: len / 256 % 256 :: len / 65536 % 256 :: len / 16777216 % 256 ::
  pcm_data

/-- `convert_pcm_to_wav` succeeds exactly when every `struct.pack` argument
is in range, and then its output is `wavBytes`. -/
theorem convert_eq_some_iff (pcm : List Nat) (sr ch sw : Nat) (out : List Nat) :
    convert_pcm_to_wav pcm sr ch sw = some out ↔
      (36 + pcm.length < 4294967296 ∧ ch < 65536 ∧ sr < 4294967296 ∧
       sr * ch * sw < 4294967296 ∧ ch * sw < 65536 ∧ sw * 8 < 65536 ∧
       out = wavBytes pcm sr ch sw) := by
  constructor
  · intro h
    simp only [convert_pcm_to_wav, packU32LE, packU16LE, Option.pure_def,
      Option.bind_eq_bind, Option.bind_eq_some, Option.ite_none_right_eq_some,
      Option.some.injEq] at h
    obtain ⟨a1, ⟨hb1, ha1⟩, a2, ⟨hb2, ha2⟩, a3, ⟨hb3, ha3⟩, a4, ⟨hb4, ha4⟩,
      a5, ⟨hb5, ha5⟩, a6, ⟨hb6, ha6⟩, a7, ⟨hb7, ha7⟩, a8, ⟨hb8, ha8⟩,
      a9, ⟨hb9, ha9⟩, hout⟩ := h
    subst ha1 ha2 ha3 ha4 ha5 ha6 ha7 ha8 ha9
    refine ⟨hb1, hb4, hb5, hb6, hb7, hb8, ?_⟩
    subst hout
    simp [wavBytes, u32le, u16le]
  · rintro ⟨h1, h2, h3, h4, h5, h6, rfl⟩
    have hd : pcm.length < 4294967296 := by omega
    simp [convert_pcm_to_wav, packU32LE, packU16LE, wavBytes, u32le, u16le,
      h1, h2, h3, h4, h5, h6, hd]

/-- C1: For every pcm byte string and valid sample rate, channel count and
sample width, the output of `convert_pcm_to_wav` has total length
`44 + len(pcm)`, bytes [0:4] equal to "RIFF", bytes [8:12] equal to "WAVE",
the little-endian uint32 at offset 4 equal to `36 + len(pcm)`, the
little-endian uint32 at offset 40 equal to `len(pcm)`, and bytes [44:]
equal to pcm unchanged. -/
theorem C1_frame_layout (pcm : List Nat)
    (sample_rate channels sample_width : Nat) (out : List Nat)
    (hw : sample_width = 1 ∨ sample_width = 2 ∨ sample_width = 3 ∨
      sample_width = 4)
    (hch : 1 ≤ channels) (hsr : 1 ≤ sample_rate)
    (h : convert_pcm_to_wav pcm sample_rate channels sample_width = some out) :
    out.length = 44 + pcm.length ∧ slice out 0 4 = [82, 73, 70, 70] ∧
    slice out 8 4 = [87, 65, 86, 69] ∧ readU32LE out 4 = 36 + pcm.length ∧
    readU32LE out 40 = pcm.length ∧ out.drop 44 = pcm := by
  obtain ⟨hfs, hch2, hsr2, hbr, hba, hbps, rfl⟩ :=
    (convert_eq_some_iff pcm sample_rate channels sample_width out).1 h
  refine ⟨?_, rfl, rfl, ?_, ?_, rfl⟩
  · simp [wavBytes]
    omega
  · show (36 + pcm.length) % 256 + 256 * ((36 + pcm.length) / 256 % 256) +
      65536 * ((36 + pcm.length) / 65536 % 256) +
      16777216 * ((36 + pcm.length) / 16777216 % 256) = 36 + pcm.length
    omega
  · show pcm.length % 256 + 256 * (pcm.length / 256 % 256) +
      65536 * (pcm.length / 65536 % 256) +
      16777216 * (pcm.length / 16777216 % 256) = pcm.length
    omega

/-- Witness for C1 at `pcm = [1, 2]` with the Python default arguments
(16000 Hz, mono, 2-byte samples). -/
theorem C1_frame_layout_witness :
    ((2 = 1 ∨ 2 = 2 ∨ 2 = 3 ∨ 2 = 4) ∧ 1 ≤ 1 ∧ 1 ≤ 16000 ∧
      convert_pcm_to_wav [1, 2] 16000 1 2 = some
        [82, 73, 70, 70, 38, 0, 0, 0, 87, 65, 86, 69, 102, 109, 116, 32,
         16, 0, 0, 0, 1, 0, 1, 0, 128, 62, 0, 0, 0, 125, 0, 0, 2, 0, 16, 0,
         100, 97, 116, 97, 2, 0, 0, 0, 1, 2]) ∧
    ([82, 73, 70, 70, 38, 0, 0, 0, 87, 65, 86, 69, 102, 109, 116, 32,
      16, 0, 0, 0, 1, 0, 1, 0, 128, 62, 0, 0, 0, 125, 0, 0, 2, 0, 16, 0,
      100, 97, 116, 97, 2, 0, 0, 0, 1, 2] : List Nat).length =
        44 + [1, 2].length ∧
    slice [82, 73, 70, 70, 38, 0, 0, 0, 87, 65, 86, 69, 102, 109, 116, 32,
      16, 0, 0, 0, 1, 0, 1, 0, 128, 62, 0, 0, 0, 125, 0, 0, 2, 0, 16, 0,
      100, 97, 116, 97, 2, 0, 0, 0, 1, 2] 0 4 = [82, 73, 70, 70] ∧
    slice [82, 73, 70, 70, 38, 0, 0, 0, 87, 65, 86, 69, 102, 109, 116, 32,
      16, 0, 0, 0, 1, 0, 1, 0, 128, 62, 0, 0, 0, 125, 0, 0, 2, 0, 16, 0,
      100, 97, 116, 97, 2, 0, 0, 0, 1, 2] 8 4 = [87, 65, 86, 69] ∧
    readU32LE [82, 73, 70, 70, 38, 0, 0, 0, 87, 65, 86, 69, 102, 109, 116,
      32, 16, 0, 0, 0, 1, 0, 1, 0, 128, 62, 0, 0, 0, 125, 0, 0, 2, 0, 16, 0,
      100, 97, 116, 97, 2, 0, 0, 0, 1, 2] 4 = 36 + [1, 2].length ∧
    readU32LE [82, 73, 70, 70, 38, 0, 0, 0, 87, 65, 86, 69, 102, 109, 116,
      32, 16, 0, 0, 0, 1, 0, 1, 0, 128, 62, 0, 0, 0, 125, 0, 0, 2, 0, 16, 0,
      100, 97, 116, 97, 2, 0, 0, 0, 1, 2] 40 = [1, 2].length ∧
    List.drop 44 [82, 73, 70, 70, 38, 0, 0, 0, 87, 65, 86, 69, 102, 109,
      116, 32, 16, 0, 0, 0, 1, 0, 1, 0, 128, 62, 0, 0, 0, 125, 0, 0, 2, 0,
      16, 0, 100, 97, 116, 97, 2, 0, 0, 0, 1, 2] = [1, 2] :=
  ⟨⟨by decide, by decide, by decide, by decide⟩,
    C1_frame_layout [1, 2] 16000 1 2 _ (by decide) (by decide) (by decide)
      (by decide)⟩

/-- C4: For every pcm byte string and valid sample rate, channel count and
sample width, the header emitted by `convert_pcm_to_wav` contains, in
order and with all multi-byte integers little-endian: the magic markers
"RIFF", "WAVE", "fmt " and "data", a format-chunk size equal to the
constant 16, a format tag equal to the constant 1, the channel count, the
sample rate, a byte rate equal to `sampleRate * channels * sampleWidth`, a
block alignment equal to `channels * sampleWidth`, bits-per-sample equal
to `sampleWidth * 8`, and a data-chunk size equal to `len(pcmData)`. -/
theorem C4_header_fields (pcm : List Nat)
    (sample_rate channels sample_width : Nat) (out : List Nat)
    (hw : sample_width = 1 ∨ sample_width = 2 ∨ sample_width = 3 ∨
      sample_width = 4)
    (hch : 1 ≤ channels) (hsr : 1 ≤ sample_rate)
    (h : convert_pcm_to_wav pcm sample_rate channels sample_width = some out) :
    slice out 0 4 = [82, 73, 70, 70] ∧ slice out 8 4 = [87, 65, 86, 69] ∧
    slice out 12 4 = [102, 109, 116, 32] ∧
    slice out 36 4 = [100, 97, 116, 97] ∧
    readU32LE out 16 = 16 ∧ readU16LE out 20 = 1 ∧
    readU16LE out 22 = channels ∧ readU32LE out 24 = sample_rate ∧
    readU32LE out 28 = sample_rate * channels * sample_width ∧
    readU16LE out 32 = channels * sample_width ∧
    readU16LE out 34 = sample_width * 8 ∧ readU32LE out 40 = pcm.length := by
  obtain ⟨hfs, hch2, hsr2, hbr, hba, hbps, rfl⟩ :=
    (convert_eq_some_iff pcm sample_rate channels sample_width out).1 h
  refine ⟨rfl, rfl, rfl, rfl, rfl, rfl, ?_, ?_, ?_, ?_, ?_, ?_⟩
  · show channels % 256 + 256 * (channels / 256 % 256) = channels
    omega
  · show sample_rate % 256 + 256 * (sample_rate / 256 % 256) +
      65536 * (sample_rate / 65536 % 256) +
      16777216 * (sample_rate / 16777216 % 256) = sample_rate
    omega
  · show (sample_rate * channels * sample_width) % 256 +
      256 * ((sample_rate * channels * sample_width) / 256 % 256) +
      65536 * ((sample_rate * channels * sample_width) / 65536 % 256) +
      16777216 * ((sample_rate * channels * sample_width) / 16777216 % 256) =
      sample_rate * channels * sample_width
    omega
  · show (channels * sample_width) % 256 +
      256 * ((channels * sample_width) / 256 % 256) = channels * sample_width
    omega
  · show (sample_width * 8) % 256 + 256 * ((sample_width * 8) / 256 % 256) =
      sample_width * 8
    omega
  · show pcm.length % 256 + 256 * (pcm.length / 256 % 256) +
      65536 * (pcm.length / 65536 % 256) +
      16777216 * (pcm.length / 16777216 % 256) = pcm.length
    omega

/-- Witness for C4 at `pcm = [5]`, rate 16000, mono, 2-byte samples. -/
theorem C4_header_fields_witness :
    ((2 = 1 ∨ 2 = 2 ∨ 2 = 3 ∨ 2 = 4) ∧ 1 ≤ 1 ∧ 1 ≤ 16000 ∧
      convert_pcm_to_wav [5] 16000 1 2 =
        some ((convert_pcm_to_wav [5] 16000 1 2).getD [])) ∧
    (slice ((convert_pcm_to_wav [5] 16000 1 2).getD []) 0 4 =
        [82, 73, 70, 70] ∧
    slice ((convert_pcm_to_wav [5] 16000 1 2).getD []) 8 4 =
        [87, 65, 86, 69] ∧
    slice ((convert_pcm_to_wav [5] 16000 1 2).getD []) 12 4 =
        [102, 109, 116, 32] ∧
    slice ((convert_pcm_to_wav [5] 16000 1 2).getD []) 36 4 =
        [100, 97, 116, 97] ∧
    readU32LE ((convert_pcm_to_wav [5] 16000 1 2).getD []) 16 = 16 ∧
    readU16LE ((convert_pcm_to_wav [5] 16000 1 2).getD []) 20 = 1 ∧
    readU16LE ((convert_pcm_to_wav [5] 16000 1 2).getD []) 22 = 1 ∧
    readU32LE ((convert_pcm_to_wav [5] 16000 1 2).getD []) 24 = 16000 ∧
    readU32LE ((convert_pcm_to_wav [5] 16000 1 2).getD []) 28 =
        16000 * 1 * 2 ∧
    readU16LE ((convert_pcm_to_wav [5] 16000 1 2).getD []) 32 = 1 * 2 ∧
    readU16LE ((convert_pcm_to_wav [5] 16000 1 2).getD []) 34 = 2 * 8 ∧
    readU32LE ((convert_pcm_to_wav [5] 16000 1 2).getD []) 40 =
        [5].length) :=
  ⟨⟨by decide, by decide, by decide, by decide⟩,
    C4_header_fields [5] 16000 1 2 _ (by decide) (by decide) (by decide)
      (by decide)⟩

/-- C5: For every pcm byte string and valid sample rate, channel count and
sample width, framing with `convert_pcm_to_wav` and then parsing the
header fields back out of the resulting bytes recovers exactly the sample
rate, the channel count, `sampleWidth * 8` as bits-per-sample, and
`len(pcm)` as the data size. -/
theorem C5_roundtrip (pcm : List Nat)
    (sample_rate channels sample_width : Nat) (out : List Nat)
    (hw : sample_width = 1 ∨ sample_width = 2 ∨ sample_width = 3 ∨
      sample_width = 4)
    (hch : 1 ≤ channels) (hsr : 1 ≤ sample_rate)
    (h : convert_pcm_to_wav pcm sample_rate channels sample_width = some out) :
    parseHeaderFields out =
      (sample_rate, channels, sample_width * 8, pcm.length) := by
  obtain ⟨hfs, hch2, hsr2, hbr, hba, hbps, rfl⟩ :=
    (convert_eq_some_iff pcm sample_rate channels sample_width out).1 h
  simp only [parseHeaderFields, Prod.mk.injEq]
  refine ⟨?_, ?_, ?_, ?_⟩
  · show sample_rate % 256 + 256 * (sample_rate / 256 % 256) +
      65536 * (sample_rate / 65536 % 256) +
      16777216 * (sample_rate / 16777216 % 256) = sample_rate
    omega
  · show channels % 256 + 256 * (channels / 256 % 256) = channels
    omega
  · show (sample_width * 8) % 256 + 256 * ((sample_width * 8) / 256 % 256) =
      sample_width * 8
    omega
  · show pcm.length % 256 + 256 * (pcm.length / 256 % 256) +
      65536 * (pcm.length / 65536 % 256) +
      16777216 * (pcm.length / 16777216 % 256) = pcm.length
    omega

/-- Witness for C5 at `pcm = [9, 9]`, rate 8000, stereo, 2-byte samples. -/
theorem C5_roundtrip_witness :
    ((2 = 1 ∨ 2 = 2 ∨ 2 = 3 ∨ 2 = 4) ∧ 1 ≤ 2 ∧ 1 ≤ 8000 ∧
      convert_pcm_to_wav [9, 9] 8000 2 2 =
        some ((convert_pcm_to_wav [9, 9] 8000 2 2).getD [])) ∧
    parseHeaderFields ((convert_pcm_to_wav [9, 9] 8000 2 2).getD []) =
      (8000, 2, 2 * 8, [9, 9].length) :=
  ⟨⟨by decide, by decide, by decide, by decide⟩,
    C5_roundtrip [9, 9] 8000 2 2 _ (by decide) (by decide) (by decide)
      (by decide)⟩

/-- Counterexample to C6 as stated: `sample_rate = 2^32`, `channels = 1`,
`sample_width = 2` satisfies the claimed preconditions (width in {1,2,3,4},
channels ≥ 1, rate ≥ 1), yet `struct.pack('<I', sample_rate)` raises
`struct.error` ('I' requires the value to fit in 32 bits), so
`convert_pcm_to_wav` fails (modelled as `none`). -/
theorem C6_counterexample :
    ((2 = 1 ∨ 2 = 2 ∨ 2 = 3 ∨ 2 = 4) ∧ 1 ≤ 1 ∧ 1 ≤ 4294967296) ∧
    convert_pcm_to_wav [] 4294967296 1 2 = none := by decide

/-- C6 (amended): under the spec preconditions together with the ranges
the packed header fields must fit (`36 + len(pcm) < 2^32`,
`sampleRate * channels * sampleWidth < 2^32`,
`channels * sampleWidth < 2^16`), every `struct.pack` call succeeds and
`convert_pcm_to_wav` returns a byte string. -/
theorem C6_no_failure (pcm : List Nat)
    (sample_rate channels sample_width : Nat)
    (hw : sample_width = 1 ∨ sample_width = 2 ∨ sample_width = 3 ∨
      sample_width = 4)
    (hch : 1 ≤ channels) (hsr : 1 ≤ sample_rate)
    (hfs : 36 + pcm.length < 4294967296)
    (hbr : sample_rate * channels * sample_width < 4294967296)
    (hba : channels * sample_width < 65536) :
    (convert_pcm_to_wav pcm sample_rate channels sample_width).isSome := by
  have hsw : 1 ≤ sample_width := by rcases hw with h | h | h | h <;> omega
  have hch2 : channels < 65536 := by
    have : channels ≤ channels * sample_width :=
      Nat.le_mul_of_pos_right channels (by omega)
    omega
  have hsr2 : sample_rate < 4294967296 := by
    have h1 : 1 ≤ channels * sample_width := Nat.one_le_iff_ne_zero.2 (by
      intro hz
      rcases Nat.mul_eq_zero.1 hz with h | h <;> omega)
    have : sample_rate ≤ sample_rate * (channels * sample_width) :=
      Nat.le_mul_of_pos_right sample_rate (by omega)
    rw [← Nat.mul_assoc] at this
    omega
  have hbps : sample_width * 8 < 65536 := by omega
  rw [Option.isSome_iff_exists]
  exact ⟨wavBytes pcm sample_rate channels sample_width,
    (convert_eq_some_iff pcm sample_rate channels sample_width
      (wavBytes pcm sample_rate channels sample_width)).2
      ⟨hfs, hch2, hsr2, hbr, hba, hbps, rfl⟩⟩

/-- Witness for C6 (amended) at `pcm = [1, 2, 3]`, the defaults
16000/1/2. -/
theorem C6_no_failure_witness :
    ((2 = 1 ∨ 2 = 2 ∨ 2 = 3 ∨ 2 = 4) ∧ 1 ≤ 1 ∧ 1 ≤ 16000 ∧
      36 + [1, 2, 3].length < 4294967296 ∧ 16000 * 1 * 2 < 4294967296 ∧
      1 * 2 < 65536) ∧
    (convert_pcm_to_wav [1, 2, 3] 16000 1 2).isSome :=
  ⟨⟨by decide, by decide, by decide, by decide, by decide, by decide⟩,
    C6_no_failure [1, 2, 3] 16000 1 2 (by decide) (by decide) (by decide)
      (by decide) (by decide) (by decide)⟩

/-- C7: `convert_pcm_to_wav` is deterministic: two calls with identical
arguments (pcm, sample rate, channels, sample width) produce byte-identical
output. -/
theorem C7_deterministic (pcm1 pcm2 : List Nat)
    (sr1 sr2 ch1 ch2 sw1 sw2 : Nat)
    (hp : pcm1 = pcm2) (hs : sr1 = sr2) (hc : ch1 = ch2) (hw : sw1 = sw2) :
    convert_pcm_to_wav pcm1 sr1 ch1 sw1 = convert_pcm_to_wav pcm2 sr2 ch2 sw2 := by
  subst hp hs hc hw
  rfl

/-- Witness for C7 at `pcm = [1]`, rate 16000, mono, 2-byte samples. -/
theorem C7_deterministic_witness :
    (([1] : List Nat) = [1] ∧ (16000 : Nat) = 16000 ∧ (1 : Nat) = 1 ∧
      (2 : Nat) = 2) ∧
    convert_pcm_to_wav [1] 16000 1 2 = convert_pcm_to_wav [1] 16000 1 2 :=
  ⟨⟨rfl, rfl, rfl, rfl⟩,
    C7_deterministic [1] [1] 16000 16000 1 1 2 2 rfl rfl rfl rfl⟩

/-- C9: Calling `convert_pcm_to_wav` with the zero-length input
`pcm = b""` (and the Python default arguments) produces exactly 44 bytes,
a valid header whose data-size field (little-endian uint32 at offset 40)
is 0 and whose file-size field (little-endian uint32 at offset 4) is
36. -/
theorem C9_empty_pcm :
    (convert_pcm_to_wav []).isSome ∧
    ((convert_pcm_to_wav []).getD []).length = 44 ∧
    readU32LE ((convert_pcm_to_wav []).getD []) 40 = 0 ∧
    readU32LE ((convert_pcm_to_wav []).getD []) 4 = 36 := by decide

/-- Evidence against C2: on a non-2xx response (here a 500 with body
"Oops"), `response.raise_for_status()` raises `httpx.HTTPStatusError`; the
`except httpx.HTTPError` handler then evaluates
`await err.response.atext()`, a method `httpx.Response` does not have, so
an `AttributeError` escapes `async_process_audio_stream` unhandled instead
of the claimed `SpeechResult("", ERROR)`. -/
theorem C2_http_error_escapes :
    async_process_audio_stream ⟨16000, 1, 16⟩ [[1, 2]]
      (RequestOutcome.response 500 [79, 111, 112, 115]) =
      Except.error PyException.attributeError := rfl

/-- C3: For every 2xx HTTP response received by
`async_process_audio_stream` (with the framing step having succeeded, as
it must for the request to have been sent): if the response body is empty
or trims to the empty string, the operation returns
`{text: "", state: ERROR}`; otherwise it returns
`{text: trimmed body, state: SUCCESS}`, with leading and trailing
whitespace stripped. -/
theorem C3_success_mapping (m : SpeechMetadata) (stream : List (List Nat))
    (status : Nat) (body : List Nat)
    (hconv : (convert_pcm_to_wav (drainStream stream) m.sample_rate
      m.channel (framerSampleWidth m)).isSome)
    (hst : isSuccessStatus status = true) :
    async_process_audio_stream m stream (RequestOutcome.response status body) =
      if strip body = [] then
        Except.ok ⟨[], SpeechResultState.error⟩
      else
        Except.ok ⟨strip body, SpeechResultState.success⟩ := by
  obtain ⟨wav, hwav⟩ := Option.isSome_iff_exists.1 hconv
  simp only [async_process_audio_stream, hwav, hst]
  by_cases hb : body = []
  · subst hb
    simp [strip]
  · simp [hb]

/-- Witness for C3 at a 200 response with body "  hi  "
(char codes [32, 32, 104, 105, 32, 32]). -/
theorem C3_success_mapping_witness :
    ((convert_pcm_to_wav (drainStream [[1, 2]]) 16000 1
        (framerSampleWidth ⟨16000, 1, 16⟩)).isSome ∧
      isSuccessStatus 200 = true) ∧
    async_process_audio_stream ⟨16000, 1, 16⟩ [[1, 2]]
        (RequestOutcome.response 200 [32, 32, 104, 105, 32, 32]) =
      if strip [32, 32, 104, 105, 32, 32] = [] then
        Except.ok ⟨[], SpeechResultState.error⟩
      else
        Except.ok ⟨strip [32, 32, 104, 105, 32, 32],
          SpeechResultState.success⟩ :=
  ⟨⟨by decide, by decide⟩,
    C3_success_mapping ⟨16000, 1, 16⟩ [[1, 2]] 200
      [32, 32, 104, 105, 32, 32] (by decide) (by decide)⟩

/-- The draining loop with any accumulator prefixes it to the
concatenation of the chunks. -/
theorem foldl_append_eq_join (l : List (List Nat)) (acc : List Nat) :
    l.foldl (fun a c => a ++ c) acc = acc ++ l.flatten := by
  induction l generalizing acc with
  | nil => simp
  | cons x xs ih => simp [ih]

/-- C8: `async_process_audio_stream` drains the whole chunk sequence
before framing, and the buffered PCM passed to `convert_pcm_to_wav` is the
order-preserving concatenation of the chunks; in particular the sequence
`[b"AB", b"CD"]` yields the buffer `b"ABCD"`.  Consequently the whole
operation behaves as if it had received the concatenation as a single
chunk. -/
theorem C8_drain_concatenation (m : SpeechMetadata)
    (stream : List (List Nat)) (o : RequestOutcome) :
    drainStream stream = stream.flatten ∧
    drainStream [[65, 66], [67, 68]] = [65, 66, 67, 68] ∧
    async_process_audio_stream m stream o =
      async_process_audio_stream m [stream.flatten] o := by
  have h1 : drainStream stream = stream.flatten := by
    simpa [drainStream] using foldl_append_eq_join stream []
  have h2 : drainStream [stream.flatten] = stream.flatten := by
    simp [drainStream]
  exact ⟨h1, by decide, by simp only [async_process_audio_stream, h1, h2]⟩

/-- C10: The sample width handed to the framer by
`async_process_audio_stream` is the floor division `bit_rate // 8`: it is
the largest whole number of bytes not exceeding the bit depth (silent
truncation when the bit depth is not divisible by 8); for
`bit_rate = 12` it yields 1 — so the framed container advertises 8
bits-per-sample, not 12 — and for `bit_rate = 16` it yields exactly 2. -/
theorem C10_sample_width_truncation (m : SpeechMetadata) :
    framerSampleWidth m = m.bit_rate / 8 ∧
    8 * framerSampleWidth m ≤ m.bit_rate ∧
    m.bit_rate < 8 * framerSampleWidth m + 8 ∧
    framerSampleWidth ⟨16000, 1, 12⟩ = 1 ∧
    framerSampleWidth ⟨16000, 1, 16⟩ = 2 ∧
    readU16LE ((convert_pcm_to_wav [1, 2] 16000 1
      (framerSampleWidth ⟨16000, 1, 12⟩)).getD []) 34 = 8 := by
  refine ⟨rfl, ?_, ?_, by decide, by decide, by decide⟩
  · simp only [framerSampleWidth]
    omega
  · simp only [framerSampleWidth]
    omega

end OpenAISTT
